import Mathlib

/-!
Verification of the eta repository's core: the generic data container of
eta/core/data.py and the streaming per-frame vision pipelines of
eta/core/primitives.py, shallowly embedded in Lean.

Container methods are embedded as pure functions over the stored record
list; class-level machinery (the optional bound record class _DATA_CLS and
the _validate check) is a structure holding an optional record decoder, and
fallible Python paths (ValueError, KeyError) return Except values.

The pipelines are embedded as trace-producing functions: each run maps its
configuration (which optional sinks are requested, how many frames the
stream has, whether the backend supports background images, and an optional
injected mid-stream failure) to the ordered list of externally visible
events (directory creation, handle opens and closes, frame reads, per-frame
writes) together with the propagated error, mirroring the source's control
flow statement by statement.
-/

namespace Eta

namespace Data

/-- Python errors raised by the container code: ValueError from _validate
when _DATA_CLS is None (data.py lines 108-114), and KeyError from the
lookup of d["data"] in from_dict (line 106) when the key is missing. -/
inductive PyErr
  | valueError
  | keyError
deriving DecidableEq

/-- DataContainer instance (data.py line 27): it stores the list of records
bound to the field named data. -/
structure DataContainer (α : Type) where
  data : List α
deriving DecidableEq

/-- A JSON dictionary as from_dict reads it: only the "data" key is ever
accessed, and it may be absent. -/
structure JsonDict (J : Type) where
  dataField : Option (List J)

/-- A container class: _DATA_CLS (data.py line 38) modelled as the optional
decoder of the bound record type (its from_dict), None when unbound. -/
structure ContainerCls (J α : Type) where
  dataCls : Option (J → α)

/-- Python any over the generator of filter outputs: true when some element
is true; in particular any of the empty list is false. -/
def anyComb (bs : List Bool) : Bool := bs.any id

/-- Python all over the generator of filter outputs: true when every element
is true; in particular all of the empty list is true. -/
def allComb (bs : List Bool) : Bool := bs.all id

/-- The per-record match test of get_matches (data.py line 84):
match(f(o) for f in filters). -/
def matchesOne {α : Type} (filters : List (α → Bool)) (m : List Bool → Bool)
    (o : α) : Bool :=
  m (filters.map (fun f => f o))

/-- DataContainer.get_matches (data.py lines 70-87) at instance level: the
new container built from list(filter(lambda o: match(...), self.data)). -/
def DataContainer.get_matches {α : Type} (c : DataContainer α)
    (filters : List (α → Bool)) (m : List Bool → Bool) : DataContainer α :=
  ⟨c.data.filter (matchesOne filters m)⟩

/-- DataContainer.count_matches (data.py lines 89-100):
len(self.get_matches(filters, match=match).data). -/
def DataContainer.count_matches {α : Type} (c : DataContainer α)
    (filters : List (α → Bool)) (m : List Bool → Bool) : Nat :=
  (c.get_matches filters m).data.length

/-- DataContainer._validate (data.py lines 108-114): raises ValueError when
the class attribute _DATA_CLS is None. -/
def ContainerCls.validate {J α : Type} (cls : ContainerCls J α) :
    Except PyErr Unit :=
  match cls.dataCls with
  | none => Except.error PyErr.valueError
  | some _ => Except.ok ()

/-- DataContainer.__init__ (data.py lines 40-47): first self._validate(),
then self.data = data or [] (None becomes the empty list). -/
def ContainerCls.init {J α : Type} (cls : ContainerCls J α)
    (data : Option (List α)) : Except PyErr (DataContainer α) :=
  match cls.validate with
  | Except.error e => Except.error e
  | Except.ok _ => Except.ok ⟨data.getD []⟩

/-- DataContainer.from_dict (data.py lines 102-106): cls._validate() runs
first (its None check on _DATA_CLS is matched here directly), then the
lookup d["data"] (KeyError when absent), then each record is decoded with
cls._DATA_CLS.from_dict and the list is passed to the constructor. -/
def ContainerCls.from_dict {J α : Type} (cls : ContainerCls J α)
    (d : JsonDict J) : Except PyErr (DataContainer α) :=
  match cls.dataCls with
  | none => Except.error PyErr.valueError
  | some dec =>
    match d.dataField with
    | none => Except.error PyErr.keyError
    | some l => cls.init (some (l.map dec))

/-- The class-level view of get_matches (data.py lines 82-87): the result is
built by calling self.__class__(data=list(filter(...))), i.e. the same
concrete container class, whose __init__ re-validates. -/
def ContainerCls.get_matches {J α : Type} (cls : ContainerCls J α)
    (c : DataContainer α) (filters : List (α → Bool))
    (m : List Bool → Bool) : Except PyErr (DataContainer α) :=
  cls.init (some (c.data.filter (matchesOne filters m)))

/-- State-passing rendering of DataContainer.add (data.py lines 62-68): the
receiver's record list before the call maps to its list after the call and
the method's return value. add appends and returns nothing. -/
def DataContainer.addS {α : Type} (st : List α) (x : α) : List α × Unit :=
  (st ++ [x], ())

/-- State-passing rendering of get_matches: the method only reads self.data
(filter builds a fresh list), so the receiver's list is returned untouched
alongside the new container. -/
def DataContainer.get_matchesS {α : Type} (st : List α)
    (filters : List (α → Bool)) (m : List Bool → Bool) :
    List α × DataContainer α :=
  (st, DataContainer.get_matches ⟨st⟩ filters m)

/-- State-passing rendering of count_matches: it calls get_matches and takes
the length of the result's record list. -/
def DataContainer.count_matchesS {α : Type} (st : List α)
    (filters : List (α → Bool)) (m : List Bool → Bool) : List α × Nat :=
  let r := DataContainer.get_matchesS st filters m
  (r.1, r.2.data.length)

/-- Concrete container used as input of the counterexamples. -/
def exampleContainer : DataContainer Nat := ⟨[0]⟩

/-- Concrete bound container class over Nat records used as input of the
counterexamples: its record decoder is the identity. -/
def natBoundCls : ContainerCls Nat Nat := ⟨some (fun j => j)⟩

/-- C2 counterexample: with the empty predicate list, Python all(()) is true
and any(()) is false, so over the one-record container the "all" matches
contain the record 0 while the "any" matches are empty — the "all" result is
not a subset of the "any" result, refuting the claim for the empty predicate
list. -/
theorem get_matches_all_not_subset_any_on_empty_filters :
    0 ∈ (exampleContainer.get_matches [] allComb).data
      ∧ 0 ∉ (exampleContainer.get_matches [] anyComb).data := by
  decide

/-- C2 amended: for every nonempty predicate list, every record in the "all"
matches of get_matches is also in the "any" matches over the same predicate
list and record set (a record passing every predicate passes at least one,
the aggregate of zero predicates being the one exception). -/
theorem get_matches_all_subset_any {α : Type} (c : DataContainer α)
    (filters : List (α → Bool)) (hne : filters ≠ []) (o : α)
    (ho : o ∈ (c.get_matches filters allComb).data) :
    o ∈ (c.get_matches filters anyComb).data := by
  rcases filters with _ | ⟨f, fs⟩
  · exact absurd rfl hne
  · simp only [DataContainer.get_matches, matchesOne, allComb, anyComb,
      List.mem_filter, List.map_cons, List.all_cons, List.any_cons,
      Bool.and_eq_true, Bool.or_eq_true, id] at ho ⊢
    exact ⟨ho.1, Or.inl ho.2.1⟩

/-- C2 witness: the amended subset statement applied to the one-record
container over the single always-true predicate. -/
theorem get_matches_all_subset_any_check :
    (5 : Nat) ∈ ((⟨[5]⟩ : DataContainer Nat).get_matches
      [fun _ => true] anyComb).data :=
  get_matches_all_subset_any ⟨[5]⟩ [fun _ => true] (by simp) 5 (by decide)

/-- C3 counterexample: decoding a dictionary whose "data" entry is missing
raises KeyError (the source looks up d["data"] unconditionally) instead of
yielding an empty container, refuting the missing-entry half of the claim. -/
theorem from_dict_missing_data_raises :
    natBoundCls.from_dict ⟨none⟩ = Except.error PyErr.keyError
      ∧ natBoundCls.from_dict ⟨none⟩
        ≠ Except.ok (⟨[]⟩ : DataContainer Nat) := by
  constructor
  · rfl
  · intro h
    exact Except.noConfusion h

/-- C3 amended: for every bound container class, decoding a structured
dictionary whose data entry is the empty list yields an empty container,
while decoding a dictionary in which the data entry is missing raises
KeyError rather than yielding a container. -/
theorem from_dict_empty_and_missing_data {J α : Type} (dec : J → α) :
    (⟨some dec⟩ : ContainerCls J α).from_dict ⟨some []⟩
        = Except.ok (⟨[]⟩ : DataContainer α)
      ∧ (⟨some dec⟩ : ContainerCls J α).from_dict ⟨none⟩
        = Except.error PyErr.keyError := by
  exact ⟨rfl, rfl⟩

/-- C4: a container class whose bound record type is unset fails at once
with ValueError both on direct construction (init runs _validate before any
record is stored) and on from_dict (which runs _validate before the data
lookup and before any record is decoded) — for every constructor argument
and every input dictionary, including one with no data entry, the result is
the _validate ValueError, so the unbound container is never usable. -/
theorem unbound_container_never_usable {J α : Type} (data0 : Option (List α))
    (d : JsonDict J) :
    (⟨none⟩ : ContainerCls J α).init data0 = Except.error PyErr.valueError
      ∧ (⟨none⟩ : ContainerCls J α).from_dict d
        = Except.error PyErr.valueError := by
  exact ⟨rfl, rfl⟩

/-- C7: get_matches with the "any" combinator over two predicates returns
exactly the union of the records matched by each predicate alone — a record
is in the combined result precisely when it is in the result for the first
predicate alone or in the result for the second predicate alone. -/
theorem get_matches_any_is_union {α : Type} (c : DataContainer α)
    (p1 p2 : α → Bool) (o : α) :
    o ∈ (c.get_matches [p1, p2] anyComb).data
      ↔ o ∈ (c.get_matches [p1] anyComb).data
        ∨ o ∈ (c.get_matches [p2] anyComb).data := by
  simp only [DataContainer.get_matches, matchesOne, anyComb,
    List.mem_filter, List.map_cons, List.map_nil, List.any_cons,
    List.any_nil, Bool.or_eq_true, Bool.or_false, id]
  tauto

/-- C9: get_matches builds its result through the receiver's own class
constructor (so a bound class yields a new container of the same concrete
class holding the filtered records), and in the state-passing rendering both
get_matches and count_matches return the receiver's record list unchanged. -/
theorem get_matches_fresh_container_receiver_unchanged {J α : Type}
    (dec : J → α) (c : DataContainer α) (filters : List (α → Bool))
    (m : List Bool → Bool) :
    (⟨some dec⟩ : ContainerCls J α).get_matches c filters m
        = Except.ok (c.get_matches filters m)
      ∧ (DataContainer.get_matchesS c.data filters m).1 = c.data
      ∧ (DataContainer.get_matchesS c.data filters m).2
        = c.get_matches filters m
      ∧ (DataContainer.count_matchesS c.data filters m).1 = c.data
      ∧ (DataContainer.count_matchesS c.data filters m).2
        = c.count_matches filters m := by
  exact ⟨rfl, rfl, rfl, rfl, rfl⟩

/-- C10: get_matches with the empty predicate list returns the empty
container under the default "any" combinator (any of no results is false)
and the full container under the "all" combinator (all of no results is
true), for every record set. -/
theorem get_matches_empty_filters {α : Type} (c : DataContainer α) :
    (c.get_matches [] anyComb).data = []
      ∧ (c.get_matches [] allComb).data = c.data := by
  constructor
  · simp [DataContainer.get_matches, matchesOne, anyComb]
  · simp [DataContainer.get_matches, matchesOne, allComb]

end Data

namespace Primitives

/-- The numeric-array sinks a run may request: the Cartesian and polar flow
arrays of DenseOpticalFlow, the foreground masks of BackgroundSubtractor,
the edge masks of EdgeDetector and the coordinates of FeaturePointDetector. -/
inductive ASink
  | cart
  | polar
  | fgmask
  | masks
  | coords
deriving DecidableEq

/-- The video sinks a run may request: the foreground and background writers
of BackgroundSubtractor, and the single visualization video the
VideoProcessor-based pipelines append to. -/
inductive VSink
  | fg
  | bg
  | single
deriving DecidableEq

/-- Externally visible events of one pipeline run, in the order the run
performs them: ensure_basedir calls, handle opens and closes, the reads of
the 1-based frame iteration, the per-frame algorithm invocations, np.save
calls on array sinks and writes to video sinks. openProcessor and
closeProcessor stand for the with-block entry and exit of the external
VideoProcessor, which owns the reader together with the optional single
output video. -/
inductive Ev
  | ensureDir (s : ASink)
  | openReader
  | openWriter (v : VSink)
  | resetEvt
  | readFrame (n : Nat)
  | procFrame (n : Nat)
  | saveArray (s : ASink) (n : Nat)
  | writeFrame (v : VSink) (n : Nat)
  | closeWriter (v : VSink)
  | closeReader
  | openProcessor
  | closeProcessor
deriving DecidableEq

/-- Errors a run can propagate: BackgroundSubtractorError (primitives.py
lines 242-246) raised by a reset on an unsupported backend, and an error
injected while iterating frames (a failed read mid-stream). -/
inductive RunErr
  | bgSubError
  | streamError
deriving DecidableEq

/-- True exactly for the per-frame events: a frame read, an algorithm
invocation on a frame, an array save or a video-frame write. -/
def isFrameEv : Ev → Bool
  | Ev.readFrame _ => true
  | Ev.procFrame _ => true
  | Ev.saveArray _ _ => true
  | Ev.writeFrame _ _ => true
  | _ => false

/-- True exactly for the ensure_basedir events. -/
def isEnsureEv : Ev → Bool
  | Ev.ensureDir _ => true
  | _ => false

/-- Every ensure_basedir call of the trace happens before every per-frame
event: the trace splits into a part with no per-frame event followed by a
part with no ensure_basedir event. -/
def ensuresBeforeFrames (tr : List Ev) : Prop :=
  ∃ l1 l2, tr = l1 ++ l2 ∧ (∀ e ∈ l1, isFrameEv e = false)
    ∧ (∀ e ∈ l2, isEnsureEv e = false)

/-- MOG2BackgroundSubtractor._reset (primitives.py lines 288-303): when the
backend exposes createBackgroundSubtractorMOG2 (OpenCV 3, whose subtractors
support getBackgroundImage) the model is created; otherwise (OpenCV 2) it
raises BackgroundSubtractorError. -/
def MOG2BackgroundSubtractor.resetResult (backendHasBgImage : Bool) :
    Except RunErr Unit :=
  if backendHasBgImage then Except.ok () else Except.error RunErr.bgSubError

/-- KNNBackgroundSubtractor._reset (primitives.py lines 344-353): same
backend probe as the MOG2 variant, raising BackgroundSubtractorError on
OpenCV 2. -/
def KNNBackgroundSubtractor.resetResult (backendHasBgImage : Bool) :
    Except RunErr Unit :=
  if backendHasBgImage then Except.ok () else Except.error RunErr.bgSubError

/-- The frame loop of BackgroundSubtractor.process (primitives.py lines
204-218), over the remaining frame count with n the next 1-based frame
number: each surviving iteration reads the frame, runs _process_frame, then
saves the foreground mask if fgmask_path, writes the foreground video frame
if fgvid_path and the background video frame if bgvid_path, in that order.
failAt injects the claim's mid-iteration error: reaching frame number
failAt raises before that frame's events. -/
def bgsubLoop (fgmaskP fgvidP bgvidP : Bool) (failAt : Option Nat) :
    Nat → Nat → List Ev × Option RunErr
  | 0, _ => ([], none)
  | k + 1, n =>
    if failAt = some n then
      ([], some RunErr.streamError)
    else
      let evs := [Ev.readFrame n, Ev.procFrame n]
        ++ (if fgmaskP then [Ev.saveArray ASink.fgmask n] else [])
        ++ (if fgvidP then [Ev.writeFrame VSink.fg n] else [])
        ++ (if bgvidP then [Ev.writeFrame VSink.bg n] else [])
      let rest := bgsubLoop fgmaskP fgvidP bgvidP failAt k (n + 1)
      (evs ++ rest.1, rest.2)

/-- The try-block body of BackgroundSubtractor.process after the writers are
opened (primitives.py lines 203-218): self._reset() runs first and may
raise; on success the frame loop runs from frame number 1. -/
def bgsubBody (resetRes : Except RunErr Unit) (fgmaskP fgvidP bgvidP : Bool)
    (numFrames : Nat) (failAt : Option Nat) : List Ev × Option RunErr :=
  match resetRes with
  | Except.error e => ([Ev.resetEvt], some e)
  | Except.ok _ =>
    let l := bgsubLoop fgmaskP fgvidP bgvidP failAt numFrames 1
    (Ev.resetEvt :: l.1, l.2)

/-- BackgroundSubtractor.process (primitives.py lines 177-223): ensure the
foreground-mask directory if requested, open the FFmpegVideoReader, then
inside try open the foreground writer if fgvid_path and the background
writer if bgvid_path, reset and iterate; the finally clause closes the
foreground writer if fgvid_path and then the background writer if
bgvid_path — the source contains no close of the reader. The result pairs
the event trace with the propagated error, the trace ending with the
finally-clause events. -/
def BackgroundSubtractor.process (resetRes : Except RunErr Unit)
    (fgmaskP fgvidP bgvidP : Bool) (numFrames : Nat) (failAt : Option Nat) :
    List Ev × Option RunErr :=
  let body := bgsubBody resetRes fgmaskP fgvidP bgvidP numFrames failAt
  ((if fgmaskP then [Ev.ensureDir ASink.fgmask] else [])
    ++ [Ev.openReader]
    ++ (if fgvidP then [Ev.openWriter VSink.fg] else [])
    ++ (if bgvidP then [Ev.openWriter VSink.bg] else [])
    ++ body.1
    ++ ((if fgvidP then [Ev.closeWriter VSink.fg] else [])
      ++ (if bgvidP then [Ev.closeWriter VSink.bg] else [])),
   body.2)

/-- One iteration of DenseOpticalFlow.process (primitives.py lines 57-79):
read the frame, compute the flow, save the Cartesian array if cart_path;
unless neither polar_path nor vid_path is set, derive the polar fields and
save them if polar_path and write the visualization frame if vid_path —
which comes to saving polar if polar_path and writing if vid_path. -/
def denseFrameEvs (cartP polarP vidP : Bool) (n : Nat) : List Ev :=
  [Ev.readFrame n, Ev.procFrame n]
  ++ (if cartP then [Ev.saveArray ASink.cart n] else [])
  ++ (if polarP then [Ev.saveArray ASink.polar n] else [])
  ++ (if vidP then [Ev.writeFrame VSink.single n] else [])

/-- The frame loop of DenseOpticalFlow.process over the remaining frame
count, with n the next 1-based frame number. -/
def denseLoop (cartP polarP vidP : Bool) : Nat → Nat → List Ev
  | 0, _ => []
  | k + 1, n => denseFrameEvs cartP polarP vidP n
      ++ denseLoop cartP polarP vidP k (n + 1)

/-- DenseOpticalFlow.process (primitives.py lines 32-79): ensure the
Cartesian directory if cart_path and the polar directory if polar_path,
reset, enter the VideoProcessor with-block, iterate, and leave the block. -/
def DenseOpticalFlow.process (cartP polarP vidP : Bool) (numFrames : Nat) :
    List Ev :=
  (if cartP then [Ev.ensureDir ASink.cart] else [])
  ++ (if polarP then [Ev.ensureDir ASink.polar] else [])
  ++ [Ev.resetEvt, Ev.openProcessor]
  ++ denseLoop cartP polarP vidP numFrames 1
  ++ [Ev.closeProcessor]

/-- One iteration of EdgeDetector.process (primitives.py lines 374-385):
read the frame, compute the edges, save the boolean mask if masks_path and
write the edges video frame if vid_path. -/
def edgeFrameEvs (masksP vidP : Bool) (n : Nat) : List Ev :=
  [Ev.readFrame n, Ev.procFrame n]
  ++ (if masksP then [Ev.saveArray ASink.masks n] else [])
  ++ (if vidP then [Ev.writeFrame VSink.single n] else [])

/-- The frame loop of EdgeDetector.process over the remaining frame count,
with n the next 1-based frame number. -/
def edgeLoop (masksP vidP : Bool) : Nat → Nat → List Ev
  | 0, _ => []
  | k + 1, n => edgeFrameEvs masksP vidP n ++ edgeLoop masksP vidP k (n + 1)

/-- EdgeDetector.process (primitives.py lines 356-385): ensure the masks
directory if masks_path, reset, enter the VideoProcessor with-block,
iterate, and leave the block. -/
def EdgeDetector.process (masksP vidP : Bool) (numFrames : Nat) : List Ev :=
  (if masksP then [Ev.ensureDir ASink.masks] else [])
  ++ [Ev.resetEvt, Ev.openProcessor]
  ++ edgeLoop masksP vidP numFrames 1
  ++ [Ev.closeProcessor]

/-- FarnebackDenseOpticalFlow (primitives.py lines 106-171) with its two
external vision calls held abstractly: cvtGray is cv2.cvtColor to
grayscale, calcFlow is cv2.calcOpticalFlowFarneback with the object's
tuning parameters already applied. -/
structure FarnebackDenseOpticalFlow (Img Gray Flow : Type) where
  cvtGray : Img → Gray
  calcFlow : Gray → Gray → Flow

/-- FarnebackDenseOpticalFlow._reset (primitives.py lines 170-171): the
stored previous frame becomes None. -/
def FarnebackDenseOpticalFlow.resetState {Gray : Type} : Option Gray := none

/-- FarnebackDenseOpticalFlow._process_frame (primitives.py lines 151-168):
convert the frame to grayscale; when no previous frame is stored, set the
previous frame to the current one; compute the flow from previous to
current; store the current frame as the new previous frame. -/
def FarnebackDenseOpticalFlow.processFrame {Img Gray Flow : Type}
    (alg : FarnebackDenseOpticalFlow Img Gray Flow)
    (prevFrame : Option Gray) (img : Img) : Flow × Option Gray :=
  let curr := alg.cvtGray img
  let prev := match prevFrame with
    | none => curr
    | some p => p
  (alg.calcFlow prev curr, some curr)

/-- The per-frame results of one run: _process_frame folded over the frames
from a given previous-frame state. -/
def FarnebackDenseOpticalFlow.run {Img Gray Flow : Type}
    (alg : FarnebackDenseOpticalFlow Img Gray Flow) :
    Option Gray → List Img → List Flow
  | _, [] => []
  | st, img :: rest =>
    let r := alg.processFrame st img
    r.1 :: alg.run r.2 rest

/-- Concrete run of BackgroundSubtractor.process used by the C1
counterexample: both video writers requested, no mask sink, a supported
backend, one frame and no injected failure. -/
def bgsubExampleTrace : List Ev :=
  (BackgroundSubtractor.process (Except.ok ()) false true true 1 none).1

/-- Membership in a conditional singleton list forces the element. -/
theorem mem_ite_singleton {α : Type} {c : Prop} [Decidable c] {x e : α}
    (h : e ∈ if c then [x] else []) : e = x := by
  split at h
  · simpa using h
  · simp at h

/-- Every event the BackgroundSubtractor frame loop emits is a per-frame
event. -/
theorem bgsubLoop_frameEv (fgmaskP fgvidP bgvidP : Bool)
    (failAt : Option Nat) :
    ∀ k n, ∀ e ∈ (bgsubLoop fgmaskP fgvidP bgvidP failAt k n).1,
      isFrameEv e = true := by
  intro k
  induction k with
  | zero =>
    intro n e he
    simp [bgsubLoop] at he
  | succ k ih =>
    intro n e he
    rw [bgsubLoop] at he
    split at he
    · simp at he
    · simp only [List.append_assoc, List.mem_append, List.mem_cons,
        List.not_mem_nil, or_false] at he
      rcases he with (h | h) | h | h | h | h
      · rw [h]; rfl
      · rw [h]; rfl
      · rw [mem_ite_singleton h]; rfl
      · rw [mem_ite_singleton h]; rfl
      · rw [mem_ite_singleton h]; rfl
      · exact ih (n + 1) e h

/-- Every event the try-block body of BackgroundSubtractor.process emits is
the reset marker or a per-frame event. -/
theorem bgsubBody_mem (resetRes : Except RunErr Unit)
    (fgmaskP fgvidP bgvidP : Bool) (numFrames : Nat) (failAt : Option Nat) :
    ∀ e ∈ (bgsubBody resetRes fgmaskP fgvidP bgvidP numFrames failAt).1,
      e = Ev.resetEvt ∨ isFrameEv e = true := by
  intro e he
  rcases resetRes with e0 | u
  · simp [bgsubBody] at he
    exact Or.inl he
  · simp only [bgsubBody, List.mem_cons] at he
    rcases he with h | h
    · exact Or.inl h
    · exact Or.inr (bgsubLoop_frameEv fgmaskP fgvidP bgvidP failAt
        numFrames 1 e h)

/-- Every event the DenseOpticalFlow frame loop emits is a per-frame
event. -/
theorem denseLoop_frameEv (cartP polarP vidP : Bool) :
    ∀ k n, ∀ e ∈ denseLoop cartP polarP vidP k n, isFrameEv e = true := by
  intro k
  induction k with
  | zero =>
    intro n e he
    simp [denseLoop] at he
  | succ k ih =>
    intro n e he
    rw [denseLoop] at he
    simp only [denseFrameEvs, List.append_assoc, List.mem_append,
      List.mem_cons, List.not_mem_nil, or_false] at he
    rcases he with (h | h) | h | h | h | h
    · rw [h]; rfl
    · rw [h]; rfl
    · rw [mem_ite_singleton h]; rfl
    · rw [mem_ite_singleton h]; rfl
    · rw [mem_ite_singleton h]; rfl
    · exact ih (n + 1) e h

/-- Every event the EdgeDetector frame loop emits is a per-frame event. -/
theorem edgeLoop_frameEv (masksP vidP : Bool) :
    ∀ k n, ∀ e ∈ edgeLoop masksP vidP k n, isFrameEv e = true := by
  intro k
  induction k with
  | zero =>
    intro n e he
    simp [edgeLoop] at he
  | succ k ih =>
    intro n e he
    rw [edgeLoop] at he
    simp only [edgeFrameEvs, List.append_assoc, List.mem_append,
      List.mem_cons, List.not_mem_nil, or_false] at he
    rcases he with (h | h) | h | h | h
    · rw [h]; rfl
    · rw [h]; rfl
    · rw [mem_ite_singleton h]; rfl
    · rw [mem_ite_singleton h]; rfl
    · exact ih (n + 1) e h

/-- A per-frame event is not an ensure_basedir event. -/
theorem frameEv_not_ensureEv {e : Ev} (h : isFrameEv e = true) :
    isEnsureEv e = false := by
  cases e <;> first | rfl | exact absurd h (by simp [isFrameEv])

/-- C1 counterexample: in the run requesting both video writers over a
one-frame stream with a supported backend and no failure, the trace
contains no release of the input stream at all (the claim demands exactly
one), and the two writers are closed in acquisition order — the foreground
writer is both opened and closed before the background writer — not in
reverse order of acquisition. -/
theorem bgsub_reader_leaked_and_order_not_reversed :
    bgsubExampleTrace.count Ev.closeReader = 0
      ∧ bgsubExampleTrace.indexOf (Ev.openWriter VSink.fg)
        < bgsubExampleTrace.indexOf (Ev.openWriter VSink.bg)
      ∧ bgsubExampleTrace.indexOf (Ev.closeWriter VSink.fg)
        < bgsubExampleTrace.indexOf (Ev.closeWriter VSink.bg) := by
  decide

/-- C1 (amended): for every BackgroundSubtractor run — normal completion,
an error injected at any point of frame iteration, or a failing reset —
the trace ends with the finally-clause closes: each requested video writer
is closed exactly once, in acquisition order (foreground then background),
after all other events and hence before the error propagates; no close
occurs earlier, and the input stream is never explicitly released. -/
theorem bgsub_release_discipline (resetRes : Except RunErr Unit)
    (fgmaskP fgvidP bgvidP : Bool) (numFrames : Nat) (failAt : Option Nat) :
    (∃ l, (BackgroundSubtractor.process resetRes fgmaskP fgvidP bgvidP
          numFrames failAt).1
        = l ++ ((if fgvidP then [Ev.closeWriter VSink.fg] else [])
          ++ (if bgvidP then [Ev.closeWriter VSink.bg] else []))
        ∧ ∀ v, Ev.closeWriter v ∉ l)
      ∧ (BackgroundSubtractor.process resetRes fgmaskP fgvidP bgvidP
          numFrames failAt).1.count (Ev.closeWriter VSink.fg)
        = (if fgvidP then 1 else 0)
      ∧ (BackgroundSubtractor.process resetRes fgmaskP fgvidP bgvidP
          numFrames failAt).1.count (Ev.closeWriter VSink.bg)
        = (if bgvidP then 1 else 0)
      ∧ (BackgroundSubtractor.process resetRes fgmaskP fgvidP bgvidP
          numFrames failAt).1.count Ev.closeReader = 0 := by
  have hbody := bgsubBody_mem resetRes fgmaskP fgvidP bgvidP numFrames failAt
  have hlmem : ∀ v, Ev.closeWriter v
      ∉ (if fgmaskP then [Ev.ensureDir ASink.fgmask] else [])
        ++ [Ev.openReader]
        ++ (if fgvidP then [Ev.openWriter VSink.fg] else [])
        ++ (if bgvidP then [Ev.openWriter VSink.bg] else [])
        ++ (bgsubBody resetRes fgmaskP fgvidP bgvidP numFrames failAt).1 := by
    intro v hv
    simp only [List.append_assoc, List.mem_append, List.mem_cons,
      List.not_mem_nil, or_false] at hv
    rcases hv with h | h | h | h | h
    · exact Ev.noConfusion (mem_ite_singleton h)
    · exact Ev.noConfusion h
    · exact Ev.noConfusion (mem_ite_singleton h)
    · exact Ev.noConfusion (mem_ite_singleton h)
    · rcases hbody _ h with h1 | h1
      · exact Ev.noConfusion h1
      · exact Bool.noConfusion h1
  have hrmem : Ev.closeReader
      ∉ (if fgmaskP then [Ev.ensureDir ASink.fgmask] else [])
        ++ [Ev.openReader]
        ++ (if fgvidP then [Ev.openWriter VSink.fg] else [])
        ++ (if bgvidP then [Ev.openWriter VSink.bg] else [])
        ++ (bgsubBody resetRes fgmaskP fgvidP bgvidP numFrames failAt).1 := by
    intro hv
    simp only [List.append_assoc, List.mem_append, List.mem_cons,
      List.not_mem_nil, or_false] at hv
    rcases hv with h | h | h | h | h
    · exact Ev.noConfusion (mem_ite_singleton h)
    · exact Ev.noConfusion h
    · exact Ev.noConfusion (mem_ite_singleton h)
    · exact Ev.noConfusion (mem_ite_singleton h)
    · rcases hbody _ h with h1 | h1
      · exact Ev.noConfusion h1
      · exact Bool.noConfusion h1
  have htr : (BackgroundSubtractor.process resetRes fgmaskP fgvidP bgvidP
        numFrames failAt).1
      = ((if fgmaskP then [Ev.ensureDir ASink.fgmask] else [])
        ++ [Ev.openReader]
        ++ (if fgvidP then [Ev.openWriter VSink.fg] else [])
        ++ (if bgvidP then [Ev.openWriter VSink.bg] else [])
        ++ (bgsubBody resetRes fgmaskP fgvidP bgvidP numFrames failAt).1)
        ++ ((if fgvidP then [Ev.closeWriter VSink.fg] else [])
          ++ (if bgvidP then [Ev.closeWriter VSink.bg] else [])) := by
    simp [BackgroundSubtractor.process, List.append_assoc]
  refine ⟨⟨_, htr, hlmem⟩, ?_, ?_, ?_⟩
  · rw [htr, List.count_append,
      List.count_eq_zero.mpr (hlmem VSink.fg)]
    rcases fgvidP with _ | _ <;> rcases bgvidP with _ | _ <;> decide
  · rw [htr, List.count_append,
      List.count_eq_zero.mpr (hlmem VSink.bg)]
    rcases fgvidP with _ | _ <;> rcases bgvidP with _ | _ <;> decide
  · rw [htr, List.count_append, List.count_eq_zero.mpr hrmem]
    rcases fgvidP with _ | _ <;> rcases bgvidP with _ | _ <;> decide

/-- C5: when the active backend lacks background-image retrieval support
(the OpenCV 2 probe of the MOG2 and KNN resets), every process run of
either variant propagates BackgroundSubtractorError and its trace contains
no per-frame event whatsoever — no frame is read or processed and no
per-frame output is written, whatever sinks are requested and however long
the stream is; the KNN variant's reset yields the very same failure as the
MOG2 variant's. -/
theorem bgsub_unsupported_backend_fails_before_frames
    (fgmaskP fgvidP bgvidP : Bool) (numFrames : Nat) (failAt : Option Nat) :
    (BackgroundSubtractor.process (MOG2BackgroundSubtractor.resetResult false)
        fgmaskP fgvidP bgvidP numFrames failAt).2 = some RunErr.bgSubError
      ∧ KNNBackgroundSubtractor.resetResult false
        = MOG2BackgroundSubtractor.resetResult false
      ∧ ∀ e ∈ (BackgroundSubtractor.process
          (MOG2BackgroundSubtractor.resetResult false)
          fgmaskP fgvidP bgvidP numFrames failAt).1,
        isFrameEv e = false := by
  refine ⟨rfl, rfl, ?_⟩
  intro e he
  have hb : bgsubBody (MOG2BackgroundSubtractor.resetResult false)
      fgmaskP fgvidP bgvidP numFrames failAt
      = ([Ev.resetEvt], some RunErr.bgSubError) := rfl
  simp only [BackgroundSubtractor.process, hb, List.append_assoc,
    List.mem_append, List.mem_cons, List.not_mem_nil, or_false,
    List.mem_singleton] at he
  rcases he with h | h | h | h | h | h | h
  · rw [mem_ite_singleton h]; rfl
  · rw [h]; rfl
  · rw [mem_ite_singleton h]; rfl
  · rw [mem_ite_singleton h]; rfl
  · rw [h]; rfl
  · rw [mem_ite_singleton h]; rfl
  · rw [mem_ite_singleton h]; rfl

/-- C6: after a FarnebackDenseOpticalFlow reset the stored previous frame
is None, and processing the first frame seeds the previous frame with that
frame itself: the first output equals the flow computed between the frame's
grayscale image and itself (the defined zero-motion policy), and the run
over any nonempty frame list begins with exactly that result. -/
theorem farneback_first_frame_flow_against_itself {Img Gray Flow : Type}
    (alg : FarnebackDenseOpticalFlow Img Gray Flow) (img : Img)
    (rest : List Img) :
    alg.processFrame FarnebackDenseOpticalFlow.resetState img
        = (alg.calcFlow (alg.cvtGray img) (alg.cvtGray img),
          some (alg.cvtGray img))
      ∧ (alg.run FarnebackDenseOpticalFlow.resetState (img :: rest)).head?
        = some (alg.calcFlow (alg.cvtGray img) (alg.cvtGray img)) := by
  exact ⟨rfl, rfl⟩

/-- C8: in every DenseOpticalFlow run the ensure_basedir calls for the
requested Cartesian and polar array sinks, and in every EdgeDetector run
the ensure_basedir call for the requested masks sink, all happen before any
frame is read, processed or written, and each requested array sink gets its
directory ensured exactly once. -/
theorem ensure_dirs_before_iteration (cartP polarP vidP : Bool) (nD : Nat)
    (masksP evidP : Bool) (nE : Nat) :
    ensuresBeforeFrames (DenseOpticalFlow.process cartP polarP vidP nD)
      ∧ (DenseOpticalFlow.process cartP polarP vidP nD).count
          (Ev.ensureDir ASink.cart) = (if cartP then 1 else 0)
      ∧ (DenseOpticalFlow.process cartP polarP vidP nD).count
          (Ev.ensureDir ASink.polar) = (if polarP then 1 else 0)
      ∧ ensuresBeforeFrames (EdgeDetector.process masksP evidP nE)
      ∧ (EdgeDetector.process masksP evidP nE).count
          (Ev.ensureDir ASink.masks) = (if masksP then 1 else 0) := by
  have hd : ∀ s, Ev.ensureDir s ∉ denseLoop cartP polarP vidP nD 1 := by
    intro s hs
    exact Bool.noConfusion (denseLoop_frameEv cartP polarP vidP nD 1 _ hs)
  have he : ∀ s, Ev.ensureDir s ∉ edgeLoop masksP evidP nE 1 := by
    intro s hs
    exact Bool.noConfusion (edgeLoop_frameEv masksP evidP nE 1 _ hs)
  refine ⟨?_, ?_, ?_, ?_, ?_⟩
  · refine ⟨(if cartP then [Ev.ensureDir ASink.cart] else [])
      ++ (if polarP then [Ev.ensureDir ASink.polar] else []),
      [Ev.resetEvt, Ev.openProcessor]
        ++ denseLoop cartP polarP vidP nD 1 ++ [Ev.closeProcessor],
      by simp [DenseOpticalFlow.process, List.append_assoc], ?_, ?_⟩
    · intro e hev
      rcases List.mem_append.mp hev with h | h
      · rw [mem_ite_singleton h]; rfl
      · rw [mem_ite_singleton h]; rfl
    · intro e hev
      simp only [List.append_assoc, List.mem_append, List.mem_cons,
        List.not_mem_nil, or_false, List.mem_singleton] at hev
      rcases hev with (h | h) | h | h
      · rw [h]; rfl
      · rw [h]; rfl
      · exact frameEv_not_ensureEv (denseLoop_frameEv cartP polarP vidP
          nD 1 e h)
      · rw [h]; rfl
  · rcases cartP with _ | _ <;> rcases polarP with _ | _ <;>
      simp [DenseOpticalFlow.process, List.count_append,
        List.count_eq_zero.mpr (hd ASink.cart)]
  · rcases cartP with _ | _ <;> rcases polarP with _ | _ <;>
      simp [DenseOpticalFlow.process, List.count_append,
        List.count_eq_zero.mpr (hd ASink.polar)]
  · refine ⟨(if masksP then [Ev.ensureDir ASink.masks] else []),
      [Ev.resetEvt, Ev.openProcessor]
        ++ edgeLoop masksP evidP nE 1 ++ [Ev.closeProcessor],
      by simp [EdgeDetector.process, List.append_assoc], ?_, ?_⟩
    · intro e hev
      rw [mem_ite_singleton hev]; rfl
    · intro e hev
      simp only [List.append_assoc, List.mem_append, List.mem_cons,
        List.not_mem_nil, or_false, List.mem_singleton] at hev
      rcases hev with (h | h) | h | h
      · rw [h]; rfl
      · rw [h]; rfl
      · exact frameEv_not_ensureEv (edgeLoop_frameEv masksP evidP nE 1 e h)
      · rw [h]; rfl
  · rcases masksP with _ | _ <;>
      simp [EdgeDetector.process, List.count_append,
        List.count_eq_zero.mpr (he ASink.masks)]

end Primitives

end Eta
